import Mathlib

/-!
Verification of the SEE helper layer (`platform/slpi/include/chre/platform/slpi/see/see_helper.h`).

The repository provides the class declaration, its member default initializers
and the documented contracts in `see_helper.h`; the method bodies live in a
`see_helper.cc` translation unit that is not part of the source tree here.
Data-model declarations below are embedded directly from the header; operation
bodies are modelled from the specification (marked `Modelled from the spec:`).

Machine integers (`uint64_t` SUID words, `uint32_t` batch periods) are carried
as natural numbers: the operations below only ever compare them for equality,
never perform arithmetic, so wrap-around is irrelevant.  `float` fields are
carried as raw uninterpreted values for the same reason.
-/

namespace SeeHelperSpec

/-- Length of the char array to store sensor string attributes
(`kSeeAttrStrValLen` in see_helper.h, line 48). -/
def kSeeAttrStrValLen : Nat := 64

/-- A sensor unique identifier (`sns_std_suid`): two 64-bit words, compared by
value.  Only equality on the words is used. -/
structure sns_std_suid where
  suidLow : Nat
  suidHigh : Nat
deriving DecidableEq, Repr

/-- The all-zero sentinel SUID (`sns_suid_sensor_init_zero`), the initial value
of `mSyncSuid` (see_helper.h line 241). -/
def sns_suid_sensor_init_zero : sns_std_suid := ⟨0, 0⟩

/-- Logical sensor types meaningful to the runtime (CHRE `SensorType`).  The
real enumeration is larger; `Unknown` plus a representative sample suffices
because the helper only compares values of the enumeration. -/
inductive SensorType where
  | Unknown
  | Accelerometer
  | Gyroscope
  | GeomagneticField
  | Pressure
  | Light
  | Proximity
deriving DecidableEq, Repr

/-- An opaque QMI client handle (`qmi_client_type`), compared by value. -/
abbrev qmi_client_type := Nat

/-- A pb-encoded message payload, as a byte list. -/
abbrev Payload := List Nat

/-- A data type string such as "accel" (the `const char *` data-type tag). -/
abbrev DataType := String

/-- Mapping between `SUID + qmiHandle` and `SensorType`
(`SeeHelper::SensorInfo`, see_helper.h lines 79-83). -/
structure SensorInfo where
  suid : sns_std_suid
  sensorType : SensorType
  qmiHandle : qmi_client_type
deriving DecidableEq, Repr

/-- Sensor attributes (`SeeAttributes`, see_helper.h lines 51-57).  The string
fields are `char[kSeeAttrStrValLen]` arrays, modelled as char lists; the two
numeric fields (`float maxSampleRate`, `uint8_t streamType`) are carried as raw
values never computed with. -/
structure SeeAttributes where
  vendor : List Char
  name : List Char
  type : List Char
  maxSampleRate : Nat
  streamType : Nat
deriving DecidableEq, Repr

/-- A sensor request (`SeeSensorRequest`, see_helper.h lines 60-65);
`float samplingRateHz` is carried as a raw value never computed with. -/
structure SeeSensorRequest where
  sensorType : SensorType
  enable : Bool
  samplingRateHz : Nat
  batchPeriodUs : Nat
deriving DecidableEq, Repr

/-- The state of one `SeeHelper` instance: the pending-request tracker fields
and the registry lists as declared in see_helper.h lines 228-252.  The
indication-callback pointer `mIndCb` is modelled by whether a callback has been
installed; `mSyncData` holds the payload deposited for a sync call (the C++
`void *` destination, abstracted to the value it receives). -/
structure SeeHelper where
  mSyncData : Option Payload
  mIndCbSet : Bool
  mWaiting : Bool
  mSyncSuid : sns_std_suid
  mSyncDataType : Option DataType
  mQmiHandles : List qmi_client_type
  mSensorInfos : List SensorInfo
deriving DecidableEq, Repr

/-- A freshly constructed `SeeHelper`: the default member initializers of
see_helper.h lines 228-252 (`mSyncData = nullptr`, `mIndCb = nullptr`,
`mWaiting = false`, `mSyncSuid = sns_suid_sensor_init_zero`,
`mSyncDataType = nullptr`, empty dynamic vectors). -/
def SeeHelper.initial : SeeHelper :=
  { mSyncData := none
    mIndCbSet := false
    mWaiting := false
    mSyncSuid := sns_suid_sensor_init_zero
    mSyncDataType := none
    mQmiHandles := []
    mSensorInfos := [] }

/-- Whether the (suid, sensorType) pair already has a registry entry. -/
def pairRegistered (infos : List SensorInfo) (suid : sns_std_suid)
    (ty : SensorType) : Bool :=
  infos.any fun i => decide (i.suid = suid ∧ i.sensorType = ty)

/-- Whether the suid has a registry entry under any sensor type. -/
def suidRegistered (infos : List SensorInfo) (suid : sns_std_suid) : Bool :=
  infos.any fun i => decide (i.suid = suid)

/-- Resolve a (suid, sensorType) pair to its registry entry. -/
def lookupPair (infos : List SensorInfo) (suid : sns_std_suid)
    (ty : SensorType) : Option SensorInfo :=
  infos.find? fun i => decide (i.suid = suid ∧ i.sensorType = ty)

/-- Resolve a logical sensor type to its registry entry (and hence its
transport handle), as the orchestrator does to pick the send path. -/
def getSensorInfo (infos : List SensorInfo) (ty : SensorType) :
    Option SensorInfo :=
  infos.find? fun i => decide (i.sensorType = ty)

/-- Result of `registerSensor`: the new helper state, the boolean return value,
and the value written through `prevRegistered`. -/
structure RegisterResult where
  st : SeeHelper
  success : Bool
  prevRegistered : Bool
deriving DecidableEq, Repr

/-- Modelled from the spec: the body of `SeeHelper::registerSensor`
(see_helper.cc) is not under src/, only its declaration and contract
(see_helper.h lines 136-154).  Per spec §4.1: registering `Unknown` fails with
no mutation; an already-registered (suid, sensorType) pair is a success no-op
reporting `prevRegistered`; a suid already registered under a different type
needs a freshly provisioned QMI handle — `newHandle` is the environment's
handle-acquisition result (`none` = acquisition failed), consulted only on that
path; otherwise the entry is added on the primary (first) QMI handle. -/
def registerSensor (st : SeeHelper) (sensorType : SensorType)
    (suid : sns_std_suid) (newHandle : Option qmi_client_type) :
    RegisterResult :=
  if sensorType = SensorType.Unknown then ⟨st, false, false⟩
  else if pairRegistered st.mSensorInfos suid sensorType then ⟨st, true, true⟩
  else if suidRegistered st.mSensorInfos suid then
    match newHandle with
    | none => ⟨st, false, false⟩
    | some h =>
        ⟨{ st with
            mSensorInfos := st.mSensorInfos ++ [⟨suid, sensorType, h⟩]
            mQmiHandles := st.mQmiHandles ++ [h] }, true, false⟩
  else
    ⟨{ st with
        mSensorInfos :=
          st.mSensorInfos ++ [⟨suid, sensorType, st.mQmiHandles.headD 0⟩] },
      true, false⟩

/-- Modelled from the spec: the pending-request tracker's `arm` step of the
sendReq body (see_helper.cc, not under src/).  Per spec §4.2, arming while
already armed (`mWaiting = true`) is a fatal programming error, modelled as
`none`; otherwise the single pending slot records the awaited SUID and data
type and `mWaiting` becomes true. -/
def arm (st : SeeHelper) (suid : sns_std_suid) (dataType : Option DataType) :
    Option SeeHelper :=
  if st.mWaiting then none
  else some { st with mWaiting := true, mSyncSuid := suid,
                      mSyncDataType := dataType }

/-- Modelled from the spec: the tracker's `disarm` step of the sendReq body
(see_helper.cc, not under src/).  Per spec §4.2 it restores the
no-active-request state on every exit path: the waiting flag, awaited SUID,
awaited data type and sync-data destination all return to their idle values. -/
def disarm (st : SeeHelper) : SeeHelper :=
  { st with mWaiting := false, mSyncSuid := sns_suid_sensor_init_zero,
            mSyncDataType := none, mSyncData := none }

/-- The environment's outcome of waiting for a synchronous indication: either
the matching indication arrived carrying a payload, or the wait timed out. -/
inductive SendOutcome where
  | delivered (payload : Payload)
  | timedOut
deriving DecidableEq, Repr

/-- Modelled from the spec: the body of `SeeHelper::sendReq` (see_helper.cc) is
not under src/, only its declaration and contract (see_helper.h lines 164-195).
Per spec §4.4: for a synchronous request it arms the tracker, sends, waits, and
unconditionally disarms before returning; a send failure after arming still
disarms first; arming while already armed is fatal (`none`).  `sendOk` is the
transport's send result and `outcome` the wait result.  Returns the final
state, the boolean return value, and the payload delivered to the waiter. -/
def sendReq (st : SeeHelper) (suid : sns_std_suid) (syncDataType : DataType)
    (waitForIndication : Bool) (sendOk : Bool) (outcome : SendOutcome) :
    Option (SeeHelper × Bool × Option Payload) :=
  if waitForIndication then
    match arm st suid (some syncDataType) with
    | none => none
    | some armedSt =>
        if sendOk then
          match outcome with
          | SendOutcome.delivered p =>
              some (disarm { armedSt with mSyncData := some p }, true, some p)
          | SendOutcome.timedOut => some (disarm armedSt, false, none)
        else some (disarm armedSt, false, none)
  else some (st, sendOk, none)

/-- An inbound indication after envelope decoding: the reporting SUID, its
data-type tag, and the decoded payload. -/
structure Indication where
  suid : sns_std_suid
  dataType : DataType
  payload : Payload
deriving DecidableEq, Repr

/-- Whether an indication matches the awaited identifier and kind of the
currently armed synchronous request. -/
def syncMatch (st : SeeHelper) (ind : Indication) : Bool :=
  st.mWaiting && decide (st.mSyncSuid = ind.suid)
    && decide (st.mSyncDataType = some ind.dataType)

/-- Result of dispatching one indication: the new helper state, whether the
indication was consumed by the synchronous path, and the event-callback
invocations it produced (one `(sensorType, payload)` entry per call). -/
structure DispatchResult where
  st : SeeHelper
  satisfiedSync : Bool
  events : List (SensorType × Payload)
deriving DecidableEq, Repr

/-- Modelled from the spec: the body of `SeeHelper::handleSnsClientEventMsg`
(see_helper.cc) is not under src/, only its declaration (see_helper.h lines
197-209).  Per spec §4.3: if the tracker is armed and the indication matches
the awaited SUID and kind, deposit the payload for the waiter and stop (no
forwarding); otherwise invoke the event callback once per registry entry whose
SUID matches, and discard silently when no entry matches. -/
def handleSnsClientEventMsg (st : SeeHelper) (ind : Indication) :
    DispatchResult :=
  if syncMatch st ind then
    ⟨{ st with mSyncData := some ind.payload, mWaiting := false }, true, []⟩
  else
    ⟨st, false,
      (st.mSensorInfos.filter fun i => decide (i.suid = ind.suid)).map
        fun i => (i.sensorType, ind.payload)⟩

/-- Modelled from the spec: the well-known broadcast SUID that discovery
requests are sent against (`sns_suid_sensor_init_default` in see_helper.cc,
not under src/).  Only value equality matters; any fixed nonzero value serves. -/
def suidLookup : sns_std_suid := ⟨1, 1⟩

/-- Modelled from the spec: the body of `SeeHelper::findSuidSync`
(see_helper.cc) is not under src/, only its declaration and contract
(see_helper.h lines 85-95).  Per spec §4.4: clears the caller's output list
(`prior`, the list's content on entry, is discarded unread), sends a discovery
command against the broadcast SUID via `sendReq`, and on delivery decodes zero
or more SUIDs into the output list via the codec collaborator `decode`.
Success even with zero SUIDs found; failure only on send failure, decode
failure, or timeout. -/
def findSuidSync (st : SeeHelper) (dataType : DataType)
    (prior : List sns_std_suid) (sendOk : Bool) (outcome : SendOutcome)
    (decode : Payload → Option (List sns_std_suid)) :
    Option (SeeHelper × Bool × List sns_std_suid) :=
  match sendReq st suidLookup dataType true sendOk outcome with
  | none => none
  | some (st', ok, pay) =>
      if ok then
        match pay with
        | some p =>
            match decode p with
            | some ids => some (st', true, ids)
            | none => some (st', false, [])
        | none => some (st', false, [])
      else some (st', false, [])

/-- One command handed to the transport: the QMI handle it is sent on, the
destination SUID, and the request it encodes. -/
structure SentCmd where
  handle : qmi_client_type
  suid : sns_std_suid
  request : SeeSensorRequest
deriving DecidableEq, Repr

/-- Result of `makeRequest`: the helper state, the boolean return value, and
the list of commands handed to the transport. -/
structure MakeRequestResult where
  st : SeeHelper
  success : Bool
  sent : List SentCmd
deriving DecidableEq, Repr

/-- Modelled from the spec: the body of `SeeHelper::makeRequest`
(see_helper.cc) is not under src/, only its declaration (see_helper.h lines
121-128).  Per spec §4.4: resolves the transport handle for the request's
logical type via the registry before anything is encoded or sent; fails with
no transport send if the type is unregistered; otherwise encodes and sends the
enable/rate/batch command on the resolved handle (fire-and-forget: `sendOk` is
the transport's send result). -/
def makeRequest (st : SeeHelper) (req : SeeSensorRequest) (sendOk : Bool) :
    MakeRequestResult :=
  match getSensorInfo st.mSensorInfos req.sensorType with
  | none => ⟨st, false, []⟩
  | some info => ⟨st, sendOk, [⟨info.qmiHandle, info.suid, req⟩]⟩

/-- Modelled from the spec: the attribute decoder of `getAttributesSync`
(see_helper.cc) is not under src/.  Per spec §6, a decoded string attribute is
copied into its fixed `char[kSeeAttrStrValLen]` field with truncation, not
failure, on overflow; strlcpy-style, one unit is kept for the terminator. -/
def storeAttrStr (src : List Char) : List Char :=
  src.take (kSeeAttrStrValLen - 1)

/-- Modelled from the spec: how a successful `getAttributesSync` populates a
`SeeAttributes` from the decoded vendor/name/type strings and numeric values
(see_helper.cc, not under src/): each string field goes through the bounded
copy `storeAttrStr`. -/
def populateAttributes (vendor name ty : List Char)
    (maxRate streamTy : Nat) : SeeAttributes :=
  ⟨storeAttrStr vendor, storeAttrStr name, storeAttrStr ty, maxRate, streamTy⟩

/-! Concrete sample values used to instantiate the theorems below. -/

/-- A sample SUID. -/
def suidA : sns_std_suid := ⟨10, 11⟩

/-- A second, distinct sample SUID. -/
def suidB : sns_std_suid := ⟨20, 21⟩

/-- A sample helper state with one registered accelerometer and an armed
pending request awaiting `suidA` / "accel". -/
def sampleArmed : SeeHelper :=
  { mSyncData := none
    mIndCbSet := true
    mWaiting := true
    mSyncSuid := suidA
    mSyncDataType := some "accel"
    mQmiHandles := [5]
    mSensorInfos := [⟨suidA, SensorType.Accelerometer, 5⟩] }

/-- A sample helper state with one registered accelerometer and no pending
request. -/
def sampleIdle : SeeHelper :=
  { mSyncData := none
    mIndCbSet := true
    mWaiting := false
    mSyncSuid := sns_suid_sensor_init_zero
    mSyncDataType := none
    mQmiHandles := [5]
    mSensorInfos := [⟨suidA, SensorType.Accelerometer, 5⟩] }

/-- A sample indication reported by `suidA` with tag "accel". -/
def indA : Indication := ⟨suidA, "accel", [3, 4]⟩

/-- A sample codec: decodes payload `[3, 4]` to one SUID, rejects the rest. -/
def decodeSample : Payload → Option (List sns_std_suid) :=
  fun p => if p = [3, 4] then some [suidB] else none

/-- A sample sensor request against an unregistered gyroscope. -/
def reqGyro : SeeSensorRequest := ⟨SensorType.Gyroscope, true, 50, 0⟩

/-- C1: at most one synchronous request is pending at a time — the tracker has
the one `mWaiting`/`mSyncSuid`/`mSyncDataType` slot, and arming it while a
request is already armed is a fatal programming error (`none`), not a
reportable `false` return from `sendReq`. -/
theorem arm_single_flight (st : SeeHelper) (suid : sns_std_suid)
    (dt : DataType) (sendOk : Bool) (outcome : SendOutcome)
    (h : st.mWaiting = true) :
    arm st suid (some dt) = none ∧
    sendReq st suid dt true sendOk outcome = none := by
  constructor
  · simp [arm, h]
  · simp [sendReq, arm, h]

/-- Witness for C1: arming the concretely armed sample state is fatal. -/
theorem arm_single_flight_witness :
    sampleArmed.mWaiting = true ∧
    (arm sampleArmed suidB (some "gyro") = none ∧
     sendReq sampleArmed suidB "gyro" true true SendOutcome.timedOut = none) :=
  ⟨rfl, arm_single_flight sampleArmed suidB "gyro" true SendOutcome.timedOut rfl⟩

/-- C2: every exit path of a synchronous `sendReq` — delivery, timeout, or a
send failure after arming — returns with the tracker disarmed, so a subsequent
arm on the same instance succeeds immediately. -/
theorem sendReq_disarms_on_exit (st : SeeHelper) (suid : sns_std_suid)
    (dt : DataType) (sendOk : Bool) (outcome : SendOutcome)
    (h : st.mWaiting = false) :
    ∃ st' ok pay, sendReq st suid dt true sendOk outcome = some (st', ok, pay) ∧
      st'.mWaiting = false ∧
      ∀ (suid2 : sns_std_suid) (dt2 : Option DataType),
        (arm st' suid2 dt2).isSome = true := by
  have harm : arm st suid (some dt)
      = some { st with
          mWaiting := true
          mSyncSuid := suid
          mSyncDataType := some dt } := by
    simp [arm, h]
  set armedSt : SeeHelper :=
    { st with mWaiting := true, mSyncSuid := suid, mSyncDataType := some dt }
    with harmDef
  cases sendOk with
  | false =>
      exact ⟨disarm armedSt, false, none, by simp [sendReq, harm], rfl,
        fun suid2 dt2 => rfl⟩
  | true =>
      cases outcome with
      | delivered p =>
          exact ⟨disarm { armedSt with mSyncData := some p }, true, some p,
            by simp [sendReq, harm], rfl, fun suid2 dt2 => rfl⟩
      | timedOut =>
          exact ⟨disarm armedSt, false, none, by simp [sendReq, harm], rfl,
            fun suid2 dt2 => rfl⟩

/-- Witness for C2: a timed-out synchronous request on the idle sample state
returns disarmed. -/
theorem sendReq_disarms_on_exit_witness :
    sampleIdle.mWaiting = false ∧
    ∃ st' ok pay,
      sendReq sampleIdle suidA "accel" true true SendOutcome.timedOut
        = some (st', ok, pay) ∧
      st'.mWaiting = false ∧
      ∀ (suid2 : sns_std_suid) (dt2 : Option DataType),
        (arm st' suid2 dt2).isSome = true :=
  ⟨rfl, sendReq_disarms_on_exit sampleIdle suidA "accel" true
          SendOutcome.timedOut rfl⟩

/-- A pair is registered exactly when the pair lookup succeeds. -/
theorem pairRegistered_iff_lookup (infos : List SensorInfo)
    (suid : sns_std_suid) (ty : SensorType) :
    pairRegistered infos suid ty = true
      ↔ (lookupPair infos suid ty).isSome = true := by
  simp [pairRegistered, lookupPair, List.any_eq_true, List.find?_isSome]

/-- An unregistered pair's lookup fails. -/
theorem lookupPair_eq_none {infos : List SensorInfo} {suid : sns_std_suid}
    {ty : SensorType} (h : pairRegistered infos suid ty = false) :
    lookupPair infos suid ty = none := by
  rw [lookupPair, List.find?_eq_none]
  simp only [pairRegistered, List.any_eq_false] at h
  intro x hx
  exact h x hx

/-- Pair lookup distributes over registry concatenation, searching left first. -/
theorem lookupPair_append {infos l2 : List SensorInfo} {suid : sns_std_suid}
    {ty : SensorType} :
    lookupPair (infos ++ l2) suid ty
      = (lookupPair infos suid ty).or (lookupPair l2 suid ty) := by
  unfold lookupPair
  exact List.find?_append ..

/-- C3: registering a fresh (identifier, logicalType) pair succeeds with the
previously-registered flag false and adds exactly one entry; registering the
same pair again succeeds with the flag true and mutates nothing, regardless of
handle availability. -/
theorem registerSensor_pair_idempotent (st : SeeHelper) (ty : SensorType)
    (suid : sns_std_suid) (h0 : qmi_client_type)
    (hty : ty ≠ SensorType.Unknown)
    (hnew : pairRegistered st.mSensorInfos suid ty = false) :
    (registerSensor st ty suid (some h0)).success = true ∧
    (registerSensor st ty suid (some h0)).prevRegistered = false ∧
    (registerSensor st ty suid (some h0)).st.mSensorInfos.length
      = st.mSensorInfos.length + 1 ∧
    pairRegistered (registerSensor st ty suid (some h0)).st.mSensorInfos suid ty
      = true ∧
    ∀ nh2 : Option qmi_client_type,
      registerSensor (registerSensor st ty suid (some h0)).st ty suid nh2
        = ⟨(registerSensor st ty suid (some h0)).st, true, true⟩ := by
  have hp2 : ∀ q : qmi_client_type,
      pairRegistered (st.mSensorInfos ++ [⟨suid, ty, q⟩]) suid ty = true := by
    intro q
    simp [pairRegistered, List.any_append]
  by_cases hs : suidRegistered st.mSensorInfos suid = true
  · have hr : registerSensor st ty suid (some h0)
        = ⟨{ st with
            mSensorInfos := st.mSensorInfos ++ [⟨suid, ty, h0⟩]
            mQmiHandles := st.mQmiHandles ++ [h0] }, true, false⟩ := by
      simp [registerSensor, hty, hnew, hs]
    rw [hr]
    refine ⟨rfl, rfl, by simp, hp2 h0, ?_⟩
    intro nh2
    simp [registerSensor, hty, hp2]
  · have hs' : suidRegistered st.mSensorInfos suid = false := by
      simpa using hs
    have hr : registerSensor st ty suid (some h0)
        = ⟨{ st with
            mSensorInfos :=
              st.mSensorInfos ++ [⟨suid, ty, st.mQmiHandles.headD 0⟩] },
          true, false⟩ := by
      simp [registerSensor, hty, hnew, hs']
    rw [hr]
    refine ⟨rfl, rfl, by simp, hp2 _, ?_⟩
    intro nh2
    simp [registerSensor, hty, hp2]

/-- Witness for C3: registering `suidB` as gyroscope on the sample registry,
then registering the same pair again. -/
theorem registerSensor_pair_idempotent_witness :
    pairRegistered sampleIdle.mSensorInfos suidB SensorType.Gyroscope
      = false ∧
    ((registerSensor sampleIdle SensorType.Gyroscope suidB (some 7)).success
        = true ∧
     (registerSensor sampleIdle SensorType.Gyroscope suidB
        (some 7)).prevRegistered = false ∧
     (registerSensor sampleIdle SensorType.Gyroscope suidB
        (some 7)).st.mSensorInfos.length
        = sampleIdle.mSensorInfos.length + 1 ∧
     pairRegistered (registerSensor sampleIdle SensorType.Gyroscope suidB
        (some 7)).st.mSensorInfos suidB SensorType.Gyroscope = true ∧
     ∀ nh2 : Option qmi_client_type,
       registerSensor (registerSensor sampleIdle SensorType.Gyroscope suidB
          (some 7)).st SensorType.Gyroscope suidB nh2
         = ⟨(registerSensor sampleIdle SensorType.Gyroscope suidB (some 7)).st,
            true, true⟩) :=
  ⟨by decide,
   registerSensor_pair_idempotent sampleIdle SensorType.Gyroscope suidB 7
     (by decide) (by decide)⟩

/-- C5: registering an identifier that is already registered under a different
logical type provisions the freshly acquired QMI handle for the new entry,
leaving both pairs independently resolvable; if acquiring the handle fails
(`none`), registration fails and the registry is unchanged. -/
theorem registerSensor_second_type_disambiguation (st : SeeHelper)
    (ty ty2 : SensorType) (suid : sns_std_suid) (hq : qmi_client_type)
    (hty : ty ≠ SensorType.Unknown)
    (hpair : pairRegistered st.mSensorInfos suid ty = false)
    (hother : pairRegistered st.mSensorInfos suid ty2 = true) :
    registerSensor st ty suid none = ⟨st, false, false⟩ ∧
    (registerSensor st ty suid (some hq)).success = true ∧
    (registerSensor st ty suid (some hq)).st.mSensorInfos
      = st.mSensorInfos ++ [⟨suid, ty, hq⟩] ∧
    (registerSensor st ty suid (some hq)).st.mQmiHandles
      = st.mQmiHandles ++ [hq] ∧
    lookupPair (registerSensor st ty suid (some hq)).st.mSensorInfos suid ty
      = some ⟨suid, ty, hq⟩ ∧
    lookupPair (registerSensor st ty suid (some hq)).st.mSensorInfos suid ty2
      = lookupPair st.mSensorInfos suid ty2 ∧
    (lookupPair (registerSensor st ty suid
        (some hq)).st.mSensorInfos suid ty2).isSome = true := by
  have hs : suidRegistered st.mSensorInfos suid = true := by
    simp only [pairRegistered, List.any_eq_true] at hother
    obtain ⟨x, hx, hpx⟩ := hother
    simp only [decide_eq_true_eq] at hpx
    simp only [suidRegistered, List.any_eq_true]
    exact ⟨x, hx, by simp [hpx.1]⟩
  have hr : registerSensor st ty suid (some hq)
      = ⟨{ st with
          mSensorInfos := st.mSensorInfos ++ [⟨suid, ty, hq⟩]
          mQmiHandles := st.mQmiHandles ++ [hq] }, true, false⟩ := by
    simp [registerSensor, hty, hpair, hs]
  have hrn : registerSensor st ty suid none = ⟨st, false, false⟩ := by
    simp [registerSensor, hty, hpair, hs]
  have hsingle : lookupPair [(⟨suid, ty, hq⟩ : SensorInfo)] suid ty
      = some ⟨suid, ty, hq⟩ := by
    unfold lookupPair
    apply List.find?_cons_of_pos
    simp
  have hsome : (lookupPair st.mSensorInfos suid ty2).isSome = true :=
    (pairRegistered_iff_lookup st.mSensorInfos suid ty2).mp hother
  obtain ⟨x, hx⟩ := Option.isSome_iff_exists.mp hsome
  have hkeep : lookupPair (st.mSensorInfos ++ [⟨suid, ty, hq⟩]) suid ty2
      = lookupPair st.mSensorInfos suid ty2 := by
    rw [lookupPair_append, hx]
    rfl
  refine ⟨hrn, ?_, ?_, ?_, ?_, ?_, ?_⟩
  · rw [hr]
  · rw [hr]
  · rw [hr]
  · rw [hr]
    show lookupPair (st.mSensorInfos ++ [⟨suid, ty, hq⟩]) suid ty
        = some ⟨suid, ty, hq⟩
    rw [lookupPair_append, lookupPair_eq_none hpair, Option.none_or, hsingle]
  · rw [hr]
    exact hkeep
  · rw [hr]
    show (lookupPair (st.mSensorInfos ++ [⟨suid, ty, hq⟩]) suid ty2).isSome
        = true
    rw [hkeep]
    exact hsome

/-- Witness for C5: `suidA` is registered as accelerometer in the sample
registry; registering it as gyroscope with handle 9 (and with a failed handle
acquisition). -/
theorem registerSensor_second_type_disambiguation_witness :
    pairRegistered sampleIdle.mSensorInfos suidA SensorType.Gyroscope
      = false ∧
    pairRegistered sampleIdle.mSensorInfos suidA SensorType.Accelerometer
      = true ∧
    (registerSensor sampleIdle SensorType.Gyroscope suidA none
      = ⟨sampleIdle, false, false⟩ ∧
     (registerSensor sampleIdle SensorType.Gyroscope suidA (some 9)).success
      = true ∧
     (registerSensor sampleIdle SensorType.Gyroscope suidA
        (some 9)).st.mSensorInfos
      = sampleIdle.mSensorInfos ++ [⟨suidA, SensorType.Gyroscope, 9⟩] ∧
     (registerSensor sampleIdle SensorType.Gyroscope suidA
        (some 9)).st.mQmiHandles
      = sampleIdle.mQmiHandles ++ [9] ∧
     lookupPair (registerSensor sampleIdle SensorType.Gyroscope suidA
        (some 9)).st.mSensorInfos suidA SensorType.Gyroscope
      = some ⟨suidA, SensorType.Gyroscope, 9⟩ ∧
     lookupPair (registerSensor sampleIdle SensorType.Gyroscope suidA
        (some 9)).st.mSensorInfos suidA SensorType.Accelerometer
      = lookupPair sampleIdle.mSensorInfos suidA SensorType.Accelerometer ∧
     (lookupPair (registerSensor sampleIdle SensorType.Gyroscope suidA
        (some 9)).st.mSensorInfos suidA SensorType.Accelerometer).isSome
      = true) :=
  ⟨by decide, by decide,
   registerSensor_second_type_disambiguation sampleIdle SensorType.Gyroscope
     SensorType.Accelerometer suidA 9 (by decide) (by decide) (by decide)⟩

/-- C4: registering the `Unknown` logical type fails and leaves the whole
helper state — in particular the registry — unchanged, for every identifier
and regardless of handle availability. -/
theorem registerSensor_unknown_rejected (st : SeeHelper) (suid : sns_std_suid)
    (nh : Option qmi_client_type) :
    registerSensor st SensorType.Unknown suid nh = ⟨st, false, false⟩ ∧
    (registerSensor st SensorType.Unknown suid nh).st.mSensorInfos
      = st.mSensorInfos := by
  constructor <;> simp [registerSensor]

/-- C10: a freshly constructed helper is idle — `mWaiting` false, sync-data and
data-type slots empty, awaited SUID at the zero sentinel — so no indication is
consumed by the synchronous path and the first arm always succeeds. -/
theorem initial_state_idle :
    SeeHelper.initial.mWaiting = false ∧
    SeeHelper.initial.mSyncData = none ∧
    SeeHelper.initial.mSyncDataType = none ∧
    SeeHelper.initial.mIndCbSet = false ∧
    SeeHelper.initial.mSyncSuid = sns_suid_sensor_init_zero ∧
    (∀ ind : Indication,
      (handleSnsClientEventMsg SeeHelper.initial ind).satisfiedSync = false ∧
      (handleSnsClientEventMsg SeeHelper.initial ind).st = SeeHelper.initial) ∧
    (∀ (suid : sns_std_suid) (dtp : Option DataType),
      arm SeeHelper.initial suid dtp
        = some { SeeHelper.initial with
            mWaiting := true
            mSyncSuid := suid
            mSyncDataType := dtp }) := by
  refine ⟨rfl, rfl, rfl, rfl, rfl, ?_, ?_⟩
  · intro ind
    constructor <;>
      simp [handleSnsClientEventMsg, syncMatch, SeeHelper.initial]
  · intro suid dtp
    simp [arm, SeeHelper.initial]

/-- C6: an indication matching the armed identifier and kind is consumed by
the synchronous path and not forwarded; any other indication never satisfies
the pending request, leaves the state unchanged, and is forwarded to the event
callback exactly once per registry entry matching its identifier — zero times
when the identifier is unregistered. -/
theorem handleSnsClientEventMsg_dispatch (st : SeeHelper) (ind : Indication) :
    (syncMatch st ind = true →
      (handleSnsClientEventMsg st ind).satisfiedSync = true ∧
      (handleSnsClientEventMsg st ind).events = []) ∧
    (syncMatch st ind = false →
      (handleSnsClientEventMsg st ind).satisfiedSync = false ∧
      (handleSnsClientEventMsg st ind).st = st ∧
      (∀ ty : SensorType,
        ((handleSnsClientEventMsg st ind).events.countP
            fun e => decide (e.1 = ty))
          = st.mSensorInfos.countP
              fun i => decide (i.suid = ind.suid ∧ i.sensorType = ty)) ∧
      (suidRegistered st.mSensorInfos ind.suid = false →
        (handleSnsClientEventMsg st ind).events = [])) := by
  constructor
  · intro hm
    simp only [handleSnsClientEventMsg, if_pos hm]
    exact ⟨by trivial, by trivial⟩
  · intro hm
    have hne : ¬ syncMatch st ind = true := by simp [hm]
    simp only [handleSnsClientEventMsg, if_neg hne]
    refine ⟨by trivial, by trivial, ?_, ?_⟩
    · intro ty
      simp only [List.countP_map, List.countP_filter]
      apply List.countP_congr
      intro i _
      simp only [Function.comp_apply, Bool.and_eq_true, decide_eq_true_eq]
      exact and_comm
    · intro hur
      have hfil : st.mSensorInfos.filter
          (fun i => decide (i.suid = ind.suid)) = [] := by
        rw [List.filter_eq_nil_iff]
        simp only [suidRegistered, List.any_eq_false] at hur
        exact hur
      simp [hfil]

/-- Witness for C6: on the idle sample state the accelerometer indication is
not consumed by the synchronous path and is forwarded exactly once. -/
theorem handleSnsClientEventMsg_dispatch_witness :
    (handleSnsClientEventMsg sampleIdle indA).satisfiedSync = false ∧
    ((handleSnsClientEventMsg sampleIdle indA).events.countP
        fun e => decide (e.1 = SensorType.Accelerometer)) = 1 := by
  have hm : syncMatch sampleIdle indA = false := by decide
  refine ⟨((handleSnsClientEventMsg_dispatch sampleIdle indA).2 hm).1, ?_⟩
  rw [((handleSnsClientEventMsg_dispatch sampleIdle indA).2 hm).2.2.1
        SensorType.Accelerometer]
  decide

/-- C7: `findSuidSync` ignores the prior content of the caller's output list
(it is cleared before population); it succeeds exactly when the discovery
exchange completes and decodes — even to zero identifiers — and on success the
output is exactly the decoded identifier list; on failure the list stays
cleared; and it returns disarmed. -/
theorem findSuidSync_contract (st : SeeHelper) (dt : DataType)
    (prior1 prior2 : List sns_std_suid) (sendOk : Bool) (outcome : SendOutcome)
    (decode : Payload → Option (List sns_std_suid))
    (h : st.mWaiting = false) :
    findSuidSync st dt prior1 sendOk outcome decode
      = findSuidSync st dt prior2 sendOk outcome decode ∧
    ∃ st' ok ids, findSuidSync st dt prior1 sendOk outcome decode
        = some (st', ok, ids) ∧
      st'.mWaiting = false ∧
      (ok = true ↔ sendOk = true ∧ ∃ p ds,
        outcome = SendOutcome.delivered p ∧ decode p = some ds ∧ ids = ds) ∧
      (ok = false → ids = []) := by
  refine ⟨rfl, ?_⟩
  have harm : arm st suidLookup (some dt)
      = some { st with
          mWaiting := true
          mSyncSuid := suidLookup
          mSyncDataType := some dt } := by
    simp [arm, h]
  cases sendOk with
  | false =>
      have e1 : findSuidSync st dt prior1 false outcome decode
          = some (disarm { st with
              mWaiting := true
              mSyncSuid := suidLookup
              mSyncDataType := some dt }, false, []) := by
        simp [findSuidSync, sendReq, harm]
      exact ⟨_, false, [], e1, rfl, by simp, fun _ => rfl⟩
  | true =>
      cases outcome with
      | timedOut =>
          have e1 : findSuidSync st dt prior1 true SendOutcome.timedOut decode
              = some (disarm { st with
                  mWaiting := true
                  mSyncSuid := suidLookup
                  mSyncDataType := some dt }, false, []) := by
            simp [findSuidSync, sendReq, harm]
          exact ⟨_, false, [], e1, rfl, by simp, fun _ => rfl⟩
      | delivered p =>
          cases hd : decode p with
          | some ds =>
              have e1 : findSuidSync st dt prior1 true
                  (SendOutcome.delivered p) decode
                  = some (disarm { st with
                      mWaiting := true
                      mSyncSuid := suidLookup
                      mSyncDataType := some dt
                      mSyncData := some p }, true, ds) := by
                simp [findSuidSync, sendReq, harm, hd]
              refine ⟨_, true, ds, e1, rfl, ?_, by simp⟩
              simp [hd]
          | none =>
              have e1 : findSuidSync st dt prior1 true
                  (SendOutcome.delivered p) decode
                  = some (disarm { st with
                      mWaiting := true
                      mSyncSuid := suidLookup
                      mSyncDataType := some dt
                      mSyncData := some p }, false, []) := by
                simp [findSuidSync, sendReq, harm, hd]
              refine ⟨_, false, [], e1, rfl, ?_, fun _ => rfl⟩
              simp [hd]

/-- Witness for C7: a successful discovery on the idle sample state returns
the decoded identifier list. -/
theorem findSuidSync_contract_witness :
    sampleIdle.mWaiting = false ∧
    (findSuidSync sampleIdle "accel" [suidA] true
        (SendOutcome.delivered [3, 4]) decodeSample
      = findSuidSync sampleIdle "accel" [] true
        (SendOutcome.delivered [3, 4]) decodeSample ∧
     ∃ st' ok ids, findSuidSync sampleIdle "accel" [suidA] true
          (SendOutcome.delivered [3, 4]) decodeSample
        = some (st', ok, ids) ∧
       st'.mWaiting = false ∧
       (ok = true ↔ true = true ∧ ∃ p ds,
         SendOutcome.delivered [3, 4] = SendOutcome.delivered p ∧
         decodeSample p = some ds ∧ ids = ds) ∧
       (ok = false → ids = [])) :=
  ⟨rfl, findSuidSync_contract sampleIdle "accel" [suidA] [] true
          (SendOutcome.delivered [3, 4]) decodeSample rfl⟩

/-- C8: configuring a logical type with no registry entry fails and hands
nothing to the transport; and any command that is handed to the transport
carries the handle and SUID resolved from the registry, so resolution precedes
every send. -/
theorem makeRequest_unregistered_no_send (st : SeeHelper)
    (req : SeeSensorRequest) (sendOk : Bool)
    (h : getSensorInfo st.mSensorInfos req.sensorType = none) :
    makeRequest st req sendOk = ⟨st, false, []⟩ ∧
    ∀ (st2 : SeeHelper) (req2 : SeeSensorRequest) (ok2 : Bool) (c : SentCmd),
      c ∈ (makeRequest st2 req2 ok2).sent →
      ∃ info, getSensorInfo st2.mSensorInfos req2.sensorType = some info ∧
        c.handle = info.qmiHandle ∧ c.suid = info.suid := by
  constructor
  · simp [makeRequest, h]
  · intro st2 req2 ok2 c hc
    unfold makeRequest at hc
    cases hg : getSensorInfo st2.mSensorInfos req2.sensorType with
    | none =>
        rw [hg] at hc
        simp at hc
    | some info =>
        rw [hg] at hc
        simp only [List.mem_singleton] at hc
        exact ⟨info, rfl, by rw [hc], by rw [hc]⟩

/-- Witness for C8: configuring the unregistered gyroscope on the sample state
fails with nothing sent. -/
theorem makeRequest_unregistered_no_send_witness :
    getSensorInfo sampleIdle.mSensorInfos reqGyro.sensorType = none ∧
    makeRequest sampleIdle reqGyro true = ⟨sampleIdle, false, []⟩ :=
  ⟨by decide,
   (makeRequest_unregistered_no_send sampleIdle reqGyro true (by decide)).1⟩

/-- C9: every attribute string stored by a successful attribute query is
bounded by `kSeeAttrStrValLen` units; a source that fits is stored unchanged
and a longer source is truncated to fit the bound rather than rejected. -/
theorem attributes_strings_bounded (v n t : List Char) (r s : Nat) :
    (populateAttributes v n t r s).vendor.length ≤ kSeeAttrStrValLen ∧
    (populateAttributes v n t r s).name.length ≤ kSeeAttrStrValLen ∧
    (populateAttributes v n t r s).type.length ≤ kSeeAttrStrValLen ∧
    (populateAttributes v n t r s).vendor.length
      = min (kSeeAttrStrValLen - 1) v.length ∧
    (v.length < kSeeAttrStrValLen → (populateAttributes v n t r s).vendor = v) ∧
    (n.length < kSeeAttrStrValLen → (populateAttributes v n t r s).name = n) ∧
    (t.length < kSeeAttrStrValLen → (populateAttributes v n t r s).type = t) := by
  refine ⟨?_, ?_, ?_, ?_, ?_, ?_, ?_⟩
  · simp only [populateAttributes, storeAttrStr, List.length_take,
      kSeeAttrStrValLen]
    omega
  · simp only [populateAttributes, storeAttrStr, List.length_take,
      kSeeAttrStrValLen]
    omega
  · simp only [populateAttributes, storeAttrStr, List.length_take,
      kSeeAttrStrValLen]
    omega
  · simp [populateAttributes, storeAttrStr]
  · intro hv
    simp only [populateAttributes, storeAttrStr]
    apply List.take_of_length_le
    simp only [kSeeAttrStrValLen] at hv ⊢
    omega
  · intro hn
    simp only [populateAttributes, storeAttrStr]
    apply List.take_of_length_le
    simp only [kSeeAttrStrValLen] at hn ⊢
    omega
  · intro ht
    simp only [populateAttributes, storeAttrStr]
    apply List.take_of_length_le
    simp only [kSeeAttrStrValLen] at ht ⊢
    omega

/-- Witness for C9: a short vendor string is stored unchanged and within the
bound. -/
theorem attributes_strings_bounded_witness :
    (populateAttributes [Char.ofNat 97] [Char.ofNat 98] [Char.ofNat 99] 5 1).vendor
      = [Char.ofNat 97] ∧
    (populateAttributes [Char.ofNat 97] [Char.ofNat 98] [Char.ofNat 99]
        5 1).vendor.length ≤ kSeeAttrStrValLen :=
  ⟨(attributes_strings_bounded [Char.ofNat 97] [Char.ofNat 98] [Char.ofNat 99]
      5 1).2.2.2.2.1 (by decide),
   (attributes_strings_bounded [Char.ofNat 97] [Char.ofNat 98] [Char.ofNat 99]
      5 1).1⟩

end SeeHelperSpec
